import Mathlib

set_option maxRecDepth 100000

/-!
Verification of the `fido_fetcher` URL liveness-checking pipeline
(`src/main.rs`).  The development shallowly embeds the pure content of the
program: the URL hasher (`generate_url_hash`, SHA-256 based), the fetch
decision (`fetch_url`), the record-streaming state machine
(`stream_input_records`), the writer/sink task (`writer_task`), and the
top-level control flow (`runMain`).  Machine integers are modelled as `Nat`
with explicit reduction modulo `2 ^ 32` / `2 ^ 64` where the Rust code relies
on fixed-width arithmetic; fallible operations return `Option`/`Except`.
-/

/-! ## Fetcher (`fetch_url`, src/main.rs:96-116)

`fetch_url` inspects the outcome of `client.get(url).send().await`: either a
response carrying an HTTP status code, or a transport-level error (timeout,
DNS failure, connection refused, TLS error).  We embed that outcome as an
inductive. -/

/-- Outcome of `client.get(url).send().await` as observed by `fetch_url`:
either an HTTP response with its status code, or a transport-level error. -/
inductive FetchResult where
  | response (status : Nat)
  | transportError
deriving DecidableEq

/-- Model of `http::StatusCode::is_success` (used by reqwest), which holds
exactly for `200 <= code < 300`. -/
def status_is_success (status : Nat) : Bool :=
  200 ≤ status && status < 300

/-- `fetch_url` (src/main.rs:96-116): on a response, return
`status.is_success()`; on a transport error, return `false`.  Total: every
call produces a `Bool`. -/
def fetch_url (result : FetchResult) : Bool :=
  match result with
  | .response status => status_is_success status
  | .transportError => false

/-! ## UTF-8 byte encoding

Rust's `str::as_bytes` / `String::len` are byte-oriented over the UTF-8
encoding; Lean's `String.length` counts characters.  We encode explicitly. -/

/-- Standard UTF-8 encoding of one Unicode scalar value, as a list of bytes. -/
def utf8EncodeChar (c : Char) : List Nat :=
  let n := c.toNat
  if n < 0x80 then [n]
  else if n < 0x800 then [0xC0 + n / 64, 0x80 + n % 64]
  else if n < 0x10000 then [0xE0 + n / 4096, 0x80 + n / 64 % 64, 0x80 + n % 64]
  else [0xF0 + n / 262144, 0x80 + n / 4096 % 64, 0x80 + n / 64 % 64, 0x80 + n % 64]

/-- UTF-8 bytes of a string (Rust `s.as_bytes()`). -/
def utf8Bytes (s : String) : List Nat :=
  s.data.flatMap utf8EncodeChar

/-- Byte length of a string (Rust `s.len()`). -/
def utf8Len (s : String) : Nat :=
  (utf8Bytes s).length

theorem utf8Len_check : utf8Len "a\tb" = 3 := by decide

/-! ## SHA-256 (the `sha2` crate's `Sha256`, FIPS 180-4)

`generate_url_hash` delegates to the `sha2` crate.  We embed SHA-256 from the
standard: 32-bit words are `Nat` values reduced modulo `2 ^ 32`. -/

/-- Addition modulo `2 ^ 32`. -/
def add32 (a b : Nat) : Nat :=
  (a + b) % 4294967296

/-- Right rotation of a 32-bit word. -/
def rotr32 (n w : Nat) : Nat :=
  ((w >>> n) ||| (w <<< (32 - n))) % 4294967296

/-- FIPS 180-4 `Ch(x,y,z)`; complement taken within 32 bits. -/
def ch32 (x y z : Nat) : Nat :=
  (x &&& y) ^^^ ((x ^^^ 0xFFFFFFFF) &&& z)

/-- FIPS 180-4 `Maj(x,y,z)`. -/
def maj32 (x y z : Nat) : Nat :=
  (x &&& y) ^^^ (x &&& z) ^^^ (y &&& z)

/-- FIPS 180-4 upper-case Sigma-0. -/
def bigSigma0 (w : Nat) : Nat :=
  rotr32 2 w ^^^ rotr32 13 w ^^^ rotr32 22 w

/-- FIPS 180-4 upper-case Sigma-1. -/
def bigSigma1 (w : Nat) : Nat :=
  rotr32 6 w ^^^ rotr32 11 w ^^^ rotr32 25 w

/-- FIPS 180-4 lower-case sigma-0. -/
def smallSigma0 (w : Nat) : Nat :=
  rotr32 7 w ^^^ rotr32 18 w ^^^ (w >>> 3)

/-- FIPS 180-4 lower-case sigma-1. -/
def smallSigma1 (w : Nat) : Nat :=
  rotr32 17 w ^^^ rotr32 19 w ^^^ (w >>> 10)

/-- The 64 SHA-256 round constants, as eight rows of eight. -/
def sha256Krows : List (List Nat) :=
  [[0x428a2f98, 0x71374491, 0xb5c0fbcf, 0xe9b5dba5, 0x3956c25b, 0x59f111f1, 0x923f82a4, 0xab1c5ed5],
   [0xd807aa98, 0x12835b01, 0x243185be, 0x550c7dc3, 0x72be5d74, 0x80deb1fe, 0x9bdc06a7, 0xc19bf174],
   [0xe49b69c1, 0xefbe4786, 0x0fc19dc6, 0x240ca1cc, 0x2de92c6f, 0x4a7484aa, 0x5cb0a9dc, 0x76f988da],
   [0x983e5152, 0xa831c66d, 0xb00327c8, 0xbf597fc7, 0xc6e00bf3, 0xd5a79147, 0x06ca6351, 0x14292967],
   [0x27b70a85, 0x2e1b2138, 0x4d2c6dfc, 0x53380d13, 0x650a7354, 0x766a0abb, 0x81c2c92e, 0x92722c85],
   [0xa2bfe8a1, 0xa81a664b, 0xc24b8b70, 0xc76c51a3, 0xd192e819, 0xd6990624, 0xf40e3585, 0x106aa070],
   [0x19a4c116, 0x1e376c08, 0x2748774c, 0x34b0bcb5, 0x391c0cb3, 0x4ed8aa4a, 0x5b9cca4f, 0x682e6ff3],
   [0x748f82ee, 0x78a5636f, 0x84c87814, 0x8cc70208, 0x90befffa, 0xa4506ceb, 0xbef9a3f7, 0xc67178f2]]

/-- The 64 SHA-256 round constants. -/
def sha256K : List Nat :=
  sha256Krows.flatten

/-- The eight SHA-256 working registers `a`-`h`. -/
structure Hash8 where
  a : Nat
  b : Nat
  c : Nat
  d : Nat
  e : Nat
  f : Nat
  g : Nat
  h : Nat
deriving DecidableEq

/-- SHA-256 initial hash value. -/
def sha256H0 : Hash8 :=
  ⟨0x6a09e667, 0xbb67ae85, 0x3c6ef372, 0xa54ff53a, 0x510e527f, 0x9b05688c, 0x1f83d9ab, 0x5be0cd19⟩

/-- Big-endian byte rendering of `v` on `n` bytes. -/
def beBytes (n v : Nat) : List Nat :=
  (List.range n).map (fun i => (v >>> (8 * (n - 1 - i))) % 256)

/-- SHA-256 message padding: append `0x80`, zero bytes to 56 mod 64, then the
bit length on 8 big-endian bytes. -/
def padMessage (m : List Nat) : List Nat :=
  let L := m.length
  let k := (64 - ((L + 9) % 64)) % 64
  m ++ 0x80 :: (List.replicate k 0 ++ beBytes 8 (8 * L))

/-- A 32-bit word from four big-endian bytes. -/
def word4 (bytes : List Nat) : Nat :=
  ((bytes.getD 0 0 * 256 + bytes.getD 1 0) * 256 + bytes.getD 2 0) * 256 + bytes.getD 3 0

/-- The sixteen 32-bit words of the `i`-th 64-byte block of a padded message. -/
def blockWords (padded : List Nat) (i : Nat) : List Nat :=
  (List.range 16).map (fun j => word4 ((padded.drop (64 * i + 4 * j)).take 4))

/-- Extend sixteen schedule words to sixty-four (FIPS 180-4 message schedule). -/
def schedule (ws : List Nat) : List Nat :=
  (List.range 48).foldl
    (fun acc _ =>
      acc ++ [add32 (add32 (smallSigma1 (acc.getD (acc.length - 2) 0)) (acc.getD (acc.length - 7) 0))
                    (add32 (smallSigma0 (acc.getD (acc.length - 15) 0)) (acc.getD (acc.length - 16) 0))])
    ws

/-- One SHA-256 round with round constant `k` and schedule word `w`. -/
def roundStep (k w : Nat) (s : Hash8) : Hash8 :=
  let t1 := add32 s.h (add32 (bigSigma1 s.e) (add32 (ch32 s.e s.f s.g) (add32 k w)))
  let t2 := add32 (bigSigma0 s.a) (maj32 s.a s.b s.c)
  ⟨add32 t1 t2, s.a, s.b, s.c, add32 s.d t1, s.e, s.f, s.g⟩

/-- Compress one 64-byte block (given as sixteen words) into the running hash. -/
def compressBlock (H : Hash8) (ws : List Nat) : Hash8 :=
  let w := schedule ws
  let s := (List.range 64).foldl (fun s t => roundStep (sha256K.getD t 0) (w.getD t 0) s) H
  ⟨add32 H.a s.a, add32 H.b s.b, add32 H.c s.c, add32 H.d s.d,
   add32 H.e s.e, add32 H.f s.f, add32 H.g s.g, add32 H.h s.h⟩

/-- SHA-256 digest of a byte list, as the list of its 32 digest bytes. -/
def sha256 (m : List Nat) : List Nat :=
  let padded := padMessage m
  let final := (List.range (padded.length / 64)).foldl
    (fun H i => compressBlock H (blockWords padded i)) sha256H0
  beBytes 4 final.a ++ beBytes 4 final.b ++ beBytes 4 final.c ++ beBytes 4 final.d ++
  beBytes 4 final.e ++ beBytes 4 final.f ++ beBytes 4 final.g ++ beBytes 4 final.h

/-- FIPS 180-4 test vector: SHA-256 of the empty message. -/
theorem sha256_empty_vector :
    sha256 [] =
      [0xe3, 0xb0, 0xc4, 0x42, 0x98, 0xfc, 0x1c, 0x14, 0x9a, 0xfb, 0xf4, 0xc8, 0x99, 0x6f, 0xb9, 0x24,
       0x27, 0xae, 0x41, 0xe4, 0x64, 0x9b, 0x93, 0x4c, 0xa4, 0x95, 0x99, 0x1b, 0x78, 0x52, 0xb8, 0x55] := by
  decide

/-- FIPS 180-4 test vector: SHA-256 of the ASCII string `abc`. -/
theorem sha256_abc_vector :
    sha256 (utf8Bytes "abc") =
      [0xba, 0x78, 0x16, 0xbf, 0x8f, 0x01, 0xcf, 0xea, 0x41, 0x41, 0x40, 0xde, 0x5d, 0xae, 0x22, 0x23,
       0xb0, 0x03, 0x61, 0xa3, 0x96, 0x17, 0x7a, 0x9c, 0xb4, 0x10, 0xff, 0x61, 0xf2, 0x00, 0x15, 0xad] := by
  decide

/-! ## URL hasher (`generate_url_hash`, src/main.rs:84-93) -/

/-- Model of `u64::from_be_bytes` applied to an 8-byte array: the bytes
interpreted positionally, most significant first. -/
def u64_from_be_bytes (bytes : List Nat) : Nat :=
  bytes.getD 0 0 * 256 ^ 7 + bytes.getD 1 0 * 256 ^ 6 + bytes.getD 2 0 * 256 ^ 5 +
  bytes.getD 3 0 * 256 ^ 4 + bytes.getD 4 0 * 256 ^ 3 + bytes.getD 5 0 * 256 ^ 2 +
  bytes.getD 6 0 * 256 + bytes.getD 7 0

/-- `generate_url_hash` (src/main.rs:84-93): SHA-256 of the URL's UTF-8 bytes,
first 8 digest bytes copied out and read with `u64::from_be_bytes`. -/
def generate_url_hash (url : String) : Nat :=
  u64_from_be_bytes ((sha256 (utf8Bytes url)).take 8)

/-- The identifier as the spec words it (section 4.1): reduce the digest's
first 8 bytes, interpreted as a big-endian unsigned integer, to the result. -/
def identify_spec (url : String) : Nat :=
  ((sha256 (utf8Bytes url)).take 8).foldl (fun acc b => acc * 256 + b) 0

/-! ## Record source (`stream_input_records`, src/main.rs:124-184) -/

/-- `InputRecord` (src/main.rs:46-50). -/
structure InputRecord where
  url : String
  text : String
deriving DecidableEq

/-- One item yielded by the stream built in `stream_input_records`: either a
parsed record paired with the cumulative byte offset at the time it was
yielded, or a parse failure tagged with the line number the code reports. -/
inductive StreamItem where
  | ok (record : InputRecord) (bytes_processed : Nat)
  | parseErr (line_number : Nat)
deriving DecidableEq

/-- Rust `char::is_whitespace`: the Unicode `White_Space` code points. -/
def rustIsWhitespace (c : Char) : Bool :=
  let n := c.toNat
  n == 0x09 || n == 0x0A || n == 0x0B || n == 0x0C || n == 0x0D || n == 0x20 ||
  n == 0x85 || n == 0xA0 || n == 0x1680 || (0x2000 ≤ n && n ≤ 0x200A) ||
  n == 0x2028 || n == 0x2029 || n == 0x202F || n == 0x205F || n == 0x3000

/-- Rust `line_content.trim().is_empty()`: every character is whitespace. -/
def isBlankRust (s : String) : Bool :=
  s.data.all rustIsWhitespace

/-- Split a character list into tab-separated fields. -/
def splitFieldsTab : List Char → List (List Char)
  | [] => [[]]
  | c :: rest =>
    let r := splitFieldsTab rest
    if c = '\t' then [] :: r
    else
      match r with
      | [] => [[c]]
      | f :: fs => (c :: f) :: fs

/-- Model of the per-line csv deserialization (src/main.rs:157-162): a fresh
tab-delimited reader without headers, serde-deserialized into the two-field
`InputRecord`.  Serde's `visit_seq` for the struct reads the first two fields
and stops, so extra trailing fields are silently ignored (the reader's
`UnequalLengths` check compares only against a previous record, which a fresh
single-record reader does not have); a line with fewer than two fields fails
with serde's `invalid_length` error for the missing `text` field.  (Quoting,
which the claims do not exercise, is not modelled.) -/
def parse_tsv_line (line : String) : Option InputRecord :=
  match splitFieldsTab line.data with
  | u :: t :: _ => some { url := String.mk u, text := String.mk t }
  | _ => none

/-- The mutable state threaded through the stream body of
`stream_input_records`: the `line_number` counter, the running
`bytes_processed` total, and the items yielded so far. -/
structure StreamState where
  line_number : Nat
  bytes_processed : Nat
  items : List StreamItem
deriving DecidableEq

/-- One iteration of the `while let Some(line) = lines.next_line()` loop
(src/main.rs:145-182): increment the line counter, add the line's byte length
plus one newline byte, skip a line whose trim is empty, otherwise yield the
parsed record with the current offset, or a parse failure tagged with the
current `line_number`. -/
def stream_step (st : StreamState) (line_content : String) : StreamState :=
  let line_number := st.line_number + 1
  let bytes_processed := st.bytes_processed + (utf8Len line_content + 1)
  if isBlankRust line_content then
    { line_number, bytes_processed, items := st.items }
  else
    match parse_tsv_line line_content with
    | some record => { line_number, bytes_processed, items := st.items ++ [.ok record bytes_processed] }
    | none => { line_number, bytes_processed, items := st.items ++ [.parseErr line_number] }

/-- `stream_input_records` (src/main.rs:124-184) on a file given as its list
of newline-terminated lines.  With `no_header = false` the first line is
consumed as the header (an empty file is the fatal `Empty input file` error);
with `no_header = true` the code leaves `header_line` as `""`.  Either way
`bytes_processed` starts at `header_line.len() + 1` and `line_number` starts
at `1`, and the remaining lines run through `stream_step`.  Returns the yielded
items and the final cumulative byte offset.  (Line-read I/O errors, which
would be yielded as read failures, are not modelled: every line of the list is
readable.) -/
def stream_input_records (lines : List String) (no_header : Bool) :
    Except String (List StreamItem × Nat) :=
  match (if no_header then some ("", lines)
         else match lines with
              | [] => none
              | header :: rest => some (header, rest)) with
  | none => .error "Empty input file"
  | some (header_line, rest) =>
    let final := rest.foldl stream_step
      { line_number := 1, bytes_processed := utf8Len header_line + 1, items := [] }
    .ok (final.items, final.bytes_processed)

/-- Total byte size of a file made of newline-terminated lines
(`get_file_size`, src/main.rs:118-122, via the file metadata). -/
def fileByteSize (lines : List String) : Nat :=
  (lines.map (fun l => utf8Len l + 1)).sum

/-! ## Fetch stage and result sink (`process_records`, src/main.rs:192-377) -/

/-- `OutputRecord` (src/main.rs:52-58). -/
structure OutputRecord where
  url : String
  text : String
  id : Nat
  download_successful : Bool
deriving DecidableEq

/-- Assembly of one `OutputRecord` inside a fetch task
(src/main.rs:318-326): the input record's fields pass through unchanged, `id`
is `generate_url_hash` of the input URL, and `download_successful` is the
fetch outcome. -/
def make_output_record (record : InputRecord) (download_successful : Bool) : OutputRecord :=
  { url := record.url, text := record.text,
    id := generate_url_hash record.url, download_successful }

/-- The records sent to the writer channel during `Streaming`
(src/main.rs:307-340): each `Ok` stream item becomes one `OutputRecord`
(with the fetch outcome given by `fetch` on its URL); a parse-failure item is
only logged (src/main.rs:332-334) and sends nothing. -/
def sent_records (fetch : String → Bool) (items : List StreamItem) : List OutputRecord :=
  items.filterMap fun item =>
    match item with
    | .ok record _ => some (make_output_record record (fetch record.url))
    | .parseErr _ => none

/-- The writer task's loop state (src/main.rs:248-297): the two counters and
the rows written to the buffered output so far (each row the serialized bytes
of one record). -/
structure WriterState where
  successful_count : Nat
  total_count : Nat
  rows : List (List Nat)
deriving DecidableEq

/-- One iteration of the writer task's `while let Some(record) = rx.recv()`
loop (src/main.rs:251-283): count the record (and its success) first, then
serialize it; a serialization failure is logged and the loop continues with
the record dropped from the output; a serialized row is written.
(`into_inner` on a `Vec` and the buffered write are modelled as infallible;
a write error likewise only drops the row.) -/
def writer_step (serialize : OutputRecord → Option (List Nat))
    (st : WriterState) (record : OutputRecord) : WriterState :=
  let total_count := st.total_count + 1
  let successful_count :=
    if record.download_successful then st.successful_count + 1 else st.successful_count
  match serialize record with
  | none => { st with total_count := total_count, successful_count := successful_count }
  | some row =>
    { total_count := total_count, successful_count := successful_count,
      rows := st.rows ++ [row] }

/-- The whole writer task (src/main.rs:243-299): drain the received records in
order from a zeroed state; at the end the buffer is flushed and
`(successful_count, total_count)` is returned as the final state. -/
def writer_task (serialize : OutputRecord → Option (List Nat))
    (incoming : List OutputRecord) : WriterState :=
  incoming.foldl (writer_step serialize) { successful_count := 0, total_count := 0, rows := [] }

/-! ## Top-level control flow (`process_records` and `main`,
src/main.rs:192-377 and 379-407) -/

/-- `RunSummary`: the `(successful_count, total_count)` pair returned by the
writer task and reported by the summary log. -/
structure RunSummary where
  successful : Nat
  total : Nat
deriving DecidableEq

/-- The fatal error exits of `main`/`process_records`: the input path does not
exist (src/main.rs:398-401), the input metadata/open fails
(src/main.rs:118-122, 128-129), the output file cannot be created
(src/main.rs:229-230), or reading the header finds an empty file
(src/main.rs:135-137). -/
inductive PipelineError where
  | inputMissing
  | inputUnreadable
  | outputUncreatable
  | emptyInput
deriving DecidableEq

/-- The environment a run observes: whether the input path exists, the input
file's lines when it can be opened and read (`none` models a metadata/open
failure), whether the output file can be created, the per-URL fetch outcome,
and the per-record serialization outcome. -/
structure Env where
  input_exists : Bool
  input_open : Option (List String)
  output_creatable : Bool
  fetch_result : String → Bool
  serialize_result : OutputRecord → Option (List Nat)

/-- The run end to end (`main` → `process_records`, src/main.rs:379-407 and
192-377): check the input path exists, read the input size (fatal if the
metadata/open fails), create the output (fatal if not creatable), stream the
input records (fatal only via the `Empty input file` header read), fan the
`Ok` records through fetch tasks into the writer, and report the writer's
final counters as the summary.  (The HTTP client build and the header write
are modelled as infallible, and the sink's arrival order is the stream order:
the counters and row multiset are order-insensitive.) -/
def runMain (env : Env) (no_header : Bool) : Except PipelineError RunSummary :=
  if env.input_exists then
    match env.input_open with
    | none => .error .inputUnreadable
    | some lines =>
      if env.output_creatable then
        match stream_input_records lines no_header with
        | .error _ => .error .emptyInput
        | .ok (items, _offset) =>
          let final := writer_task env.serialize_result (sent_records env.fetch_result items)
          .ok { successful := final.successful_count, total := final.total_count }
      else .error .outputUncreatable
  else .error .inputMissing

/-- A concrete environment whose input is an existing, readable, completely
empty file and whose output is creatable. -/
def emptyFileEnv : Env :=
  { input_exists := true, input_open := some [], output_creatable := true,
    fetch_result := fun _ => true, serialize_result := fun _ => some [] }

/-! ## Claim C1: the fetch boundary -/

/-- C1 counterexample: the HTTP status 304 lies in the claimed 2xx-3xx
success range, yet `fetch_url` returns `false` for it, because
`StatusCode::is_success` holds only for 2xx.  (A 304 response is visible to
`fetch_url`: reqwest's redirect policy does not follow it.) -/
theorem fetch_url_false_on_304 :
    fetch_url (FetchResult.response 304) = false ∧ 200 ≤ 304 ∧ 304 < 400 := by
  decide

/-- C1 (amended): `fetch_url` returns `true` iff the response status is in
the 2xx range (`StatusCode::is_success`); every non-2xx status — including
the 3xx class — and every transport-level failure yields `false`, and the
function is total, so every call completes with a boolean. -/
theorem fetch_url_true_iff_status_2xx (result : FetchResult) :
    fetch_url result = true ↔
      ∃ status, result = FetchResult.response status ∧ 200 ≤ status ∧ status < 300 := by
  cases result with
  | response status => simp [fetch_url, status_is_success]
  | transportError => simp [fetch_url]

/-! ## Claims C2 and C3: byte-offset and line-number accounting -/

/-- C2: in the no-header configuration the code still initializes the running
offset to `header_line.len() + 1 = 1` for a header newline that was never
read (src/main.rs:133-140), so after consuming a 4-byte single-record file
the cumulative offset is 5, not the file size 4. -/
theorem no_header_offset_overcounts_by_one :
    fileByteSize ["a\tb"] = 4 ∧
    stream_input_records ["a\tb"] true =
      .ok ([StreamItem.ok { url := "a", text := "b" } 5], 5) := by
  exact ⟨rfl, rfl⟩

/-- A three-field line does not fail parsing: csv's headerless serde
deserialization reads the two struct fields and silently ignores the
trailing one. -/
theorem extra_trailing_field_ignored :
    parse_tsv_line "a\tb\tc" = some { url := "a", text := "b" } := by
  exact rfl

/-- C3: in the no-header configuration the `line_number` counter still starts
at 1 as if a header occupied the first line (src/main.rs:144), so the
malformed first (and only) physical line of the file — a tab-less line, which
fails deserialization with `invalid_length` for the missing `text` field — is
reported as line 2 instead of line 1. -/
theorem no_header_parse_error_line_number_off_by_one :
    stream_input_records ["abc"] true = .ok ([StreamItem.parseErr 2], 5) := by
  exact rfl

/-- Every branch of `stream_step` adds the line's byte length plus one
terminator byte to the running offset. -/
theorem stream_step_bytes (st : StreamState) (line_content : String) :
    (stream_step st line_content).bytes_processed =
      st.bytes_processed + (utf8Len line_content + 1) := by
  unfold stream_step
  cases hb : isBlankRust line_content
  · cases hp : parse_tsv_line line_content <;> simp [hb, hp]
  · simp [hb]

theorem stream_foldl_bytes (lines : List String) :
    ∀ st : StreamState,
    (lines.foldl stream_step st).bytes_processed = st.bytes_processed + fileByteSize lines := by
  induction lines with
  | nil => intro st; simp [fileByteSize]
  | cons line rest ih =>
    intro st
    rw [List.foldl_cons, ih (stream_step st line), stream_step_bytes]
    simp [fileByteSize]
    omega

/-- In the header-skipping configuration the final cumulative offset does
equal the file's byte size: `header.len() + 1` plus the per-line totals. -/
theorem header_mode_offset_eq_file_size (header : String) (rest : List String) :
    ∀ items off, stream_input_records (header :: rest) false = .ok (items, off) →
      off = fileByteSize (header :: rest) := by
  intro items off h
  simp only [stream_input_records] at h
  obtain ⟨-, h2⟩ := Prod.mk.injEq .. ▸ (Except.ok.injEq .. ▸ h)
  rw [← h2, stream_foldl_bytes]
  simp [fileByteSize]

/-- In the no-header configuration the final cumulative offset always
exceeds the file's byte size by exactly the phantom header-newline byte. -/
theorem no_header_offset_eq_file_size_plus_one (lines : List String) :
    ∀ items off, stream_input_records lines true = .ok (items, off) →
      off = fileByteSize lines + 1 := by
  intro items off h
  simp only [stream_input_records] at h
  obtain ⟨-, h2⟩ := Prod.mk.injEq .. ▸ (Except.ok.injEq .. ▸ h)
  rw [← h2, stream_foldl_bytes]
  simp [utf8Len, utf8Bytes]
  omega

/-- In the header-skipping configuration the parse-failure tag does match the
physical 1-based line number: a malformed (tab-less) second physical line is
tagged 2. -/
theorem header_mode_parse_error_tag_example :
    stream_input_records ["url\ttext", "oops"] false =
      .ok ([StreamItem.parseErr 2], 14) := by
  exact rfl

/-! ## Claim C7: blank lines -/

/-- C7: a line whose trim is empty is neither yielded as a record nor
reported as an error, while its byte length plus one terminator byte is still
added to the cumulative offset (src/main.rs:148-155). -/
theorem blank_line_counted_not_yielded (st : StreamState) (line_content : String)
    (hblank : isBlankRust line_content = true) :
    stream_step st line_content =
      { line_number := st.line_number + 1,
        bytes_processed := st.bytes_processed + (utf8Len line_content + 1),
        items := st.items } := by
  simp [stream_step, hblank]

/-- C7 witness: a single-space line in a concrete stream state. -/
theorem blank_line_counted_not_yielded_witness :
    isBlankRust " " = true ∧
    stream_step { line_number := 1, bytes_processed := 1, items := [] } " " =
      { line_number := 2, bytes_processed := 3, items := [] } :=
  ⟨rfl, blank_line_counted_not_yielded
    { line_number := 1, bytes_processed := 1, items := [] } " " rfl⟩

/-! ## Claim C4: the identifier function -/

theorem beBytes_length (n v : Nat) : (beBytes n v).length = n := by
  simp [beBytes]

theorem sha256_length (m : List Nat) : (sha256 m).length = 32 := by
  simp [sha256, beBytes_length]

theorem sha256_byte_lt (m : List Nat) : ∀ b ∈ sha256 m, b < 256 := by
  intro b hb
  simp [sha256, beBytes, List.mem_append, List.mem_map, List.mem_range] at hb
  rcases hb with h | h | h | h | h | h | h | h <;> obtain ⟨i, -, rfl⟩ := h <;>
    exact Nat.mod_lt _ (by norm_num)

theorem u64_take8 (l : List Nat) (hlen : l.length = 32) (hlt : ∀ b ∈ l, b < 256) :
    u64_from_be_bytes (l.take 8) = (l.take 8).foldl (fun acc b => acc * 256 + b) 0 ∧
    u64_from_be_bytes (l.take 8) < 2 ^ 64 := by
  rcases l with _ | ⟨b0, l⟩; · simp at hlen
  rcases l with _ | ⟨b1, l⟩; · simp at hlen
  rcases l with _ | ⟨b2, l⟩; · simp at hlen
  rcases l with _ | ⟨b3, l⟩; · simp at hlen
  rcases l with _ | ⟨b4, l⟩; · simp at hlen
  rcases l with _ | ⟨b5, l⟩; · simp at hlen
  rcases l with _ | ⟨b6, l⟩; · simp at hlen
  rcases l with _ | ⟨b7, l⟩; · simp at hlen
  have h0 : b0 < 256 := hlt b0 (by simp)
  have h1 : b1 < 256 := hlt b1 (by simp)
  have h2 : b2 < 256 := hlt b2 (by simp)
  have h3 : b3 < 256 := hlt b3 (by simp)
  have h4 : b4 < 256 := hlt b4 (by simp)
  have h5 : b5 < 256 := hlt b5 (by simp)
  have h6 : b6 < 256 := hlt b6 (by simp)
  have h7 : b7 < 256 := hlt b7 (by simp)
  constructor
  · simp [u64_from_be_bytes, List.take, List.foldl, List.getD]
    ring
  · simp only [u64_from_be_bytes, List.take, List.getD_cons_zero, List.getD_cons_succ]
    norm_num
    omega

/-- C4: `generate_url_hash` agrees everywhere with the identifier as the spec
words it (`identify_spec`: big-endian reduction of the first 8 SHA-256 digest
bytes of the URL's UTF-8 bytes), and its value fits an unsigned 64-bit
integer.  It is a plain function of the string, so determinism across calls
holds by construction. -/
theorem generate_url_hash_eq_spec (url : String) :
    generate_url_hash url = identify_spec url ∧ generate_url_hash url < 2 ^ 64 := by
  unfold generate_url_hash identify_spec
  exact u64_take8 (sha256 (utf8Bytes url)) (sha256_length _) (sha256_byte_lt _)

/-! ## Claim C5: field preservation and id round-trip -/

theorem sent_records_id_eq (fetch : String → Bool) (items : List StreamItem) :
    ∀ o ∈ sent_records fetch items, o.id = generate_url_hash o.url := by
  intro o ho
  simp only [sent_records, List.mem_filterMap] at ho
  obtain ⟨item, -, hmatch⟩ := ho
  cases item with
  | ok record bp =>
    simp only [Option.some_inj] at hmatch
    subst hmatch
    rfl
  | parseErr n => simp at hmatch

/-- C5: each `OutputRecord` assembled by a fetch task keeps the input
record's `url` and `text` unchanged and carries `generate_url_hash` of that
URL as its `id`; consequently, over any list of stream items, applying the
hash to the produced records' `url` column reproduces their `id` column. -/
theorem output_record_roundtrip (fetch : String → Bool) (items : List StreamItem)
    (record : InputRecord) (download_successful : Bool) :
    (make_output_record record download_successful).url = record.url ∧
    (make_output_record record download_successful).text = record.text ∧
    (make_output_record record download_successful).download_successful = download_successful ∧
    (sent_records fetch items).map (fun o => generate_url_hash o.url) =
      (sent_records fetch items).map (fun o => o.id) :=
  ⟨rfl, rfl, rfl,
    List.map_congr_left fun o ho => (sent_records_id_eq fetch items o ho).symm⟩

/-! ## Claim C6: the writer task -/

theorem writer_step_total (serialize : OutputRecord → Option (List Nat))
    (st : WriterState) (record : OutputRecord) :
    (writer_step serialize st record).total_count = st.total_count + 1 := by
  rcases hs : serialize record with _ | row <;> simp [writer_step, hs]

theorem writer_step_successful (serialize : OutputRecord → Option (List Nat))
    (st : WriterState) (record : OutputRecord) :
    (writer_step serialize st record).successful_count =
      st.successful_count + (if record.download_successful then 1 else 0) := by
  rcases hs : serialize record with _ | row <;>
    cases hd : record.download_successful <;> simp [writer_step, hs, hd]

theorem writer_step_rows (serialize : OutputRecord → Option (List Nat))
    (st : WriterState) (record : OutputRecord) :
    (writer_step serialize st record).rows = st.rows ++ (serialize record).toList := by
  rcases hs : serialize record with _ | row <;> simp [writer_step, hs]

theorem writer_foldl_spec (serialize : OutputRecord → Option (List Nat)) :
    ∀ (incoming : List OutputRecord) (st : WriterState),
    (incoming.foldl (writer_step serialize) st).total_count = st.total_count + incoming.length ∧
    (incoming.foldl (writer_step serialize) st).successful_count =
      st.successful_count + (incoming.filter (fun r => r.download_successful)).length ∧
    (incoming.foldl (writer_step serialize) st).rows = st.rows ++ incoming.filterMap serialize := by
  intro incoming
  induction incoming with
  | nil => intro st; simp
  | cons record rest ih =>
    intro st
    obtain ⟨ht, hsu, hr⟩ := ih (writer_step serialize st record)
    refine ⟨?_, ?_, ?_⟩
    · rw [List.foldl_cons, ht, writer_step_total, List.length_cons]
      omega
    · rw [List.foldl_cons, hsu, writer_step_successful, List.filter_cons]
      cases hd : record.download_successful <;> simp
      all_goals omega
    · rw [List.foldl_cons, hr, writer_step_rows, List.filterMap_cons]
      rcases hs : serialize record with _ | row <;> simp

/-- C6: over any incoming sequence, the writer task counts every record in
`total_count` (and every successful one in `successful_count`) even when its
serialization fails, writes exactly the rows whose serialization succeeds —
a failed record is dropped from the output while processing continues — and
finishes with the final `(successful_count, total_count)` summary. -/
theorem writer_task_spec (serialize : OutputRecord → Option (List Nat))
    (incoming : List OutputRecord) :
    (writer_task serialize incoming).total_count = incoming.length ∧
    (writer_task serialize incoming).successful_count =
      (incoming.filter (fun r => r.download_successful)).length ∧
    (writer_task serialize incoming).rows = incoming.filterMap serialize := by
  have h := writer_foldl_spec serialize incoming
    { successful_count := 0, total_count := 0, rows := [] }
  simpa [writer_task] using h

/-! ## Claims C8 and C10: fatal errors and run completion -/

/-- C8 counterexample: an input file that exists, opens, and is empty, with a
creatable output, is not a setup error in the claim's sense, yet the run
terminates with a failure (the `Empty input file` header-read error) in the
default header-skipping configuration. -/
theorem run_fails_on_empty_input_despite_setup :
    emptyFileEnv.input_exists = true ∧ emptyFileEnv.input_open = some [] ∧
    emptyFileEnv.output_creatable = true ∧
    runMain emptyFileEnv false = .error PipelineError.emptyInput :=
  ⟨rfl, rfl, rfl, rfl⟩

/-- C8 (amended): the run terminates with a failure iff the input path does
not exist, the input cannot be opened/read, the output file cannot be
created, or header skipping is enabled and the input file is completely
empty; otherwise it completes with a summary regardless of the per-URL fetch
and per-record serialization outcomes. -/
theorem run_failure_iff_setup_or_empty_header (env : Env) (no_header : Bool) :
    (runMain env no_header).isOk = false ↔
      env.input_exists = false ∨ env.input_open = none ∨ env.output_creatable = false ∨
      (no_header = false ∧ env.input_open = some []) := by
  obtain ⟨ie, io, oc, fr, sr⟩ := env
  rcases io with _ | lines
  · cases ie <;> simp [runMain, Except.isOk, Except.toBool]
  · rcases lines with _ | ⟨l, ls⟩ <;> cases ie <;> cases oc <;> cases no_header <;>
      simp [runMain, stream_input_records, Except.isOk, Except.toBool]

/-- C10: for any environment whose existing, readable input file is
completely empty and whose output is creatable, the header-skipping run
aborts with the fatal `Empty input file` error before producing any records,
while the no-header run completes normally with an empty summary. -/
theorem empty_input_fatal_with_header_ok_without (env : Env)
    (h1 : env.input_exists = true) (h2 : env.input_open = some [])
    (h3 : env.output_creatable = true) :
    runMain env false = .error PipelineError.emptyInput ∧
    runMain env true = .ok { successful := 0, total := 0 } := by
  obtain ⟨ie, io, oc, fr, sr⟩ := env
  simp only at h1 h2 h3
  subst h1 h2 h3
  exact ⟨rfl, rfl⟩

/-- C10 witness: the concrete empty-file environment. -/
theorem empty_input_fatal_with_header_ok_without_witness :
    runMain emptyFileEnv false = .error PipelineError.emptyInput ∧
    runMain emptyFileEnv true = .ok { successful := 0, total := 0 } :=
  empty_input_fatal_with_header_ok_without emptyFileEnv rfl rfl rfl

/-! ## End-to-end scenario (spec section 8)

A header line plus one reachable and one unreachable URL: the run completes
with two processed records, one of them successful. -/

/-- The spec's two-URL scenario as a concrete environment: `good.example`
answers with a success status, `bad.example` does not. -/
def scenarioEnv : Env :=
  { input_exists := true,
    input_open := some ["url\ttext", "https://good.example\thello", "https://bad.example\tworld"],
    output_creatable := true,
    fetch_result := fun u => u == "https://good.example",
    serialize_result := fun r => some (utf8Bytes r.url) }

theorem scenario_two_rows_one_successful :
    runMain scenarioEnv false = .ok { successful := 1, total := 2 } := by
  exact rfl
